import Mathlib

/-!
# Verification of the AgentMove knowledge-fusion and response-parsing subsystem

Shallow embedding of the repository's core components:
* `extract_json` / `match_prediction` (src/utils.py) — the layered LLM-response parser,
* `SocialWorld.build_graph` / `SocialWorld.retrival_neighbors` (src/models/world_model.py),
* `Memory` (src/models/personal_memory.py),
* `DemoAgent.predict` (src/app/backend/demo_agent.py).

Python values, exceptions, slicing, `json.loads`, and the two concrete regular
expressions used by the parser are modelled explicitly.  Machine-level details
that no claim depends on (file persistence of the graph, logging, HTTP) are out
of scope, as the spec places them outside the core.
-/

/-- Embedding of the Python values flowing through the parser: the subset of
types that `json.loads` can produce plus `None` (JSON strings, integers,
booleans, arrays, objects).  Dictionaries are insertion-ordered association
lists, as in CPython. -/
inductive PyVal where
  | none : PyVal
  | bool (b : Bool) : PyVal
  | int (n : Int) : PyVal
  | str (s : String) : PyVal
  | list (l : List PyVal) : PyVal
  | dict (d : List (String × PyVal)) : PyVal
deriving Repr

/-- Python `len(v)`: defined for `str`, `list`, `dict`; raises `TypeError`
(with CPython's message) on `None`, ints and bools. -/
def pyLen : PyVal → Except String Nat
  | PyVal.str s => Except.ok s.length
  | PyVal.list l => Except.ok l.length
  | PyVal.dict d => Except.ok d.length
  | PyVal.none => Except.error "object of type 'NoneType' has no len()"
  | PyVal.int _ => Except.error "object of type 'int' has no len()"
  | PyVal.bool _ => Except.error "object of type 'bool' has no len()"

/-- Python `d.get(k)` on a dict: the stored value, or `None` when absent. -/
def pyGet (d : List (String × PyVal)) (k : String) : PyVal :=
  match d.find? (fun e => e.1 == k) with
  | some e => e.2
  | Option.none => PyVal.none

/-- Python `s.find(c)`: index of the first occurrence, `-1` when absent. -/
def pyFind (cs : List Char) (c : Char) : Int :=
  match cs.findIdx? (· == c) with
  | some i => (i : Int)
  | Option.none => -1

/-- Python `s.rfind(c)`: index of the last occurrence, `-1` when absent. -/
def pyRFind (cs : List Char) (c : Char) : Int :=
  match cs.reverse.findIdx? (· == c) with
  | some i => ((cs.length - 1 - i : Nat) : Int)
  | Option.none => -1

/-- Python slicing `s[a:b]` with negative-index normalisation and clamping. -/
def pySlice (cs : List Char) (a b : Int) : List Char :=
  let n : Int := cs.length
  let lo : Int := if a < 0 then max (a + n) 0 else min a n
  let hi : Int := if b < 0 then max (b + n) 0 else min b n
  if lo < hi then (cs.drop lo.toNat).take (hi - lo).toNat else []

/-- JSON whitespace skipping for the `json.loads` model. -/
def skipWs (cs : List Char) : List Char :=
  cs.dropWhile (fun c => c == ' ' || c == '\n' || c == '\t' || c == '\r')

/-- Body of a JSON string literal (after the opening quote): returns the
decoded characters and the remainder after the closing quote. -/
def parseStringBody : List Char → Option (List Char × List Char)
  | [] => Option.none
  | '"' :: rest => some ([], rest)
  | '\\' :: e :: rest =>
      let c : Char :=
        if e == 'n' then '\n' else if e == 't' then '\t'
        else if e == 'r' then '\r' else e
      match parseStringBody rest with
      | some (s, r) => some (c :: s, r)
      | Option.none => Option.none
  | c :: rest =>
      match parseStringBody rest with
      | some (s, r) => some (c :: s, r)
      | Option.none => Option.none

/-- Digits of a nonnegative integer literal. -/
def parseDigits (cs : List Char) : Option (Nat × List Char) :=
  let ds := cs.takeWhile Char.isDigit
  if ds.isEmpty then Option.none
  else some (ds.foldl (fun n c => n * 10 + (c.toNat - '0'.toNat)) 0, cs.dropWhile Char.isDigit)

/-- Insert a key into an insertion-ordered dict, overwriting in place when the
key already exists — the duplicate-key behaviour of `json.loads`. -/
def insertOverwrite (d : List (String × PyVal)) (k : String) (v : PyVal) :
    List (String × PyVal) :=
  if d.any (fun e => e.1 == k) then
    d.map (fun e => if e.1 == k then (e.1, v) else e)
  else d ++ [(k, v)]

mutual

/-- Recursive-descent model of `json.loads` on the grammar the repository's
inputs use: `null`, booleans, integers, strings, arrays, objects.
(Floating-point literals never occur in the inputs the claims concern and are
rejected.)  `fuel` bounds nesting depth. -/
def parseJsonVal : Nat → List Char → Option (PyVal × List Char)
  | 0, _ => Option.none
  | fuel + 1, cs =>
    match skipWs cs with
    | 'n' :: 'u' :: 'l' :: 'l' :: r => some (PyVal.none, r)
    | 't' :: 'r' :: 'u' :: 'e' :: r => some (PyVal.bool true, r)
    | 'f' :: 'a' :: 'l' :: 's' :: 'e' :: r => some (PyVal.bool false, r)
    | '"' :: r =>
        match parseStringBody r with
        | some (s, rest) => some (PyVal.str (String.mk s), rest)
        | Option.none => Option.none
    | '[' :: r => parseJsonElems fuel (skipWs r) []
    | '{' :: r => parseJsonMembers fuel (skipWs r) []
    | '-' :: r =>
        match parseDigits r with
        | some (n, rest) => some (PyVal.int (-(n : Int)), rest)
        | Option.none => Option.none
    | r =>
        match parseDigits r with
        | some (n, rest) => some (PyVal.int (n : Int), rest)
        | Option.none => Option.none

/-- Elements of a JSON array (after `[`, whitespace skipped). -/
def parseJsonElems : Nat → List Char → List PyVal → Option (PyVal × List Char)
  | 0, _, _ => Option.none
  | _ + 1, ']' :: r, acc => some (PyVal.list acc.reverse, r)
  | fuel + 1, cs, acc =>
    match parseJsonVal fuel cs with
    | some (v, rest) =>
        match skipWs rest with
        | ',' :: r2 => parseJsonElems fuel (skipWs r2) (v :: acc)
        | ']' :: r2 => some (PyVal.list (v :: acc).reverse, r2)
        | _ => Option.none
    | Option.none => Option.none

/-- Members of a JSON object (after `{`, whitespace skipped). -/
def parseJsonMembers : Nat → List Char → List (String × PyVal) →
    Option (PyVal × List Char)
  | 0, _, _ => Option.none
  | _ + 1, '}' :: r, acc => some (PyVal.dict acc, r)
  | fuel + 1, '"' :: cs, acc =>
    match parseStringBody cs with
    | some (k, rest) =>
        match skipWs rest with
        | ':' :: r2 =>
            match parseJsonVal fuel (skipWs r2) with
            | some (v, rest2) =>
                let acc' := insertOverwrite acc (String.mk k) v
                match skipWs rest2 with
                | ',' :: r3 => parseJsonMembers fuel (skipWs r3) acc'
                | '}' :: r3 => some (PyVal.dict acc', r3)
                | _ => Option.none
            | Option.none => Option.none
        | _ => Option.none
    | Option.none => Option.none
  | _ + 1, _, _ => Option.none

end

/-- `json.loads`: parse a complete document, rejecting trailing garbage.
`Option.none` plays the role of `json.JSONDecodeError`. -/
def pyJsonLoads (s : String) : Option PyVal :=
  match parseJsonVal (s.length + 1) s.data with
  | some (v, rest) => if (skipWs rest).isEmpty then some v else Option.none
  | Option.none => Option.none

/-! ## The parser's two regular expressions (src/utils.py `match_prediction`) -/

/-- Python `\w` on the ASCII inputs in play: letters, digits, underscore. -/
def isWordChar (c : Char) : Bool := c.isAlphanum || c == '_'

/-- The character class `[0-9a-f]` (lowercase hexadecimal). -/
def isHexLower (c : Char) : Bool := c.isDigit || ('a' ≤ c && c ≤ 'f')

/-- First position `j' ≥ j` at which one of the keywords occurs. -/
def findKeywordFrom (cs : List Char) (kws : List (List Char)) :
    Nat → Nat → Option Nat
  | 0, _ => Option.none
  | fuel + 1, j =>
      if kws.any (fun k => k.isPrefixOf (cs.drop j)) then some j
      else findKeywordFrom cs kws fuel (j + 1)

/-- Leftmost match of `re.search(r'[Kk]eyword(.*?)[Rr]eason', text, re.DOTALL)`:
returns the lazily-captured group between the end of the keyword and the start
of the first subsequent `[Rr]eason`. -/
def searchGroup (cs kwU kwL : List Char) : Nat → Nat → Option (List Char)
  | 0, _ => Option.none
  | fuel + 1, i =>
      if kwU.isPrefixOf (cs.drop i) || kwL.isPrefixOf (cs.drop i) then
        match findKeywordFrom cs ["Reason".data, "reason".data]
            (cs.length + 1) (i + kwU.length) with
        | some j => some ((cs.drop (i + kwU.length)).take (j - (i + kwU.length)))
        | Option.none => searchGroup cs kwU kwL fuel (i + 1)
      else searchGroup cs kwU kwL fuel (i + 1)

/-- Is there a `\b[0-9a-f]{24}\b` match starting at index `i`? -/
def hexTokenAt (cs : List Char) (i : Nat) : Bool :=
  (i == 0 || !(isWordChar (cs.getD (i - 1) ' '))) &&
  ((cs.drop i).take 24).length == 24 &&
  ((cs.drop i).take 24).all isHexLower &&
  (i + 24 == cs.length || !(isWordChar (cs.getD (i + 24) ' ')))

/-- `re.findall(r'\b[0-9a-f]{24}\b', text)`: all non-overlapping matches in
left-to-right scan order. -/
def findallHex (cs : List Char) : Nat → Nat → List String
  | 0, _ => []
  | fuel + 1, i =>
      if i ≥ cs.length then []
      else if hexTokenAt cs i then
        String.mk ((cs.drop i).take 24) :: findallHex cs fuel (i + 24)
      else findallHex cs fuel (i + 1)

/-- The name CPython reports for the type of a value. -/
def pyTypeName : PyVal → String
  | PyVal.none => "NoneType"
  | PyVal.bool _ => "bool"
  | PyVal.int _ => "int"
  | PyVal.str _ => "str"
  | PyVal.list _ => "list"
  | PyVal.dict _ => "dict"

/-- `utils.match_prediction(text, prediction_key)`: regex extraction of
24-character hexadecimal place ids between the prediction keyword and the
next reason keyword.  `re.search` on a non-string argument raises `TypeError`
(message as of CPython 3.11), which the `Except` models. -/
def match_prediction (text : PyVal) (prediction_key : String) :
    Except String (List String) :=
  match text with
  | PyVal.str s =>
      let cs := s.data
      -- the "prediction" branch and the final `else` branch of the Python
      -- if/elif both use the `[Pp]rediction` pattern
      let group :=
        if prediction_key == "recommendation" then
          searchGroup cs "Recommendation".data "recommendation".data (cs.length + 1) 0
        else
          searchGroup cs "Prediction".data "prediction".data (cs.length + 1) 0
      match group with
      | some g => Except.ok (findallHex g (g.length + 1) 0)
      | Option.none => Except.ok []
  | v => Except.error ("expected string or bytes-like object, got '" ++ pyTypeName v ++ "'")

/-! ## `utils.extract_json` -/

/-- Python `int(item)`: identity on ints, bool coercion, base-10 parse of a
stripped string; `ValueError`/`TypeError` otherwise. -/
def pyInt : PyVal → Except String Int
  | PyVal.int n => Except.ok n
  | PyVal.bool b => Except.ok (if b then 1 else 0)
  | PyVal.str s =>
      let t := s.data.dropWhile (· == ' ') |>.reverse.dropWhile (· == ' ') |>.reverse
      let (sgn, ds) : Int × List Char :=
        match t with
        | '-' :: r => (-1, r)
        | '+' :: r => (1, r)
        | r => (1, r)
      if !ds.isEmpty && ds.all Char.isDigit then
        Except.ok (sgn * (ds.foldl (fun n c => n * 10 + (c.toNat - '0'.toNat)) 0 : Nat))
      else Except.error ("invalid literal for int() with base 10: '" ++ s ++ "'")
  | PyVal.none => Except.error "int() argument must be a string, a bytes-like object or a real number, not 'NoneType'"
  | PyVal.list _ => Except.error "int() argument must be a string, a bytes-like object or a real number, not 'list'"
  | PyVal.dict _ => Except.error "int() argument must be a string, a bytes-like object or a real number, not 'dict'"

/-- The list comprehension `[int(item) for item in prediction]`: iterate the
value (list elements, string characters, dict keys; non-iterables raise
`TypeError`) and coerce each item with `int`. -/
def pyIterInts : PyVal → Except String (List Int)
  | PyVal.list items => items.mapM pyInt
  | PyVal.str s => s.data.mapM (fun c => pyInt (PyVal.str (String.mk [c])))
  | PyVal.dict d => d.mapM (fun e => pyInt (PyVal.str e.1))
  | v => match v with
      | PyVal.none => Except.error "'NoneType' object is not iterable"
      | _ => Except.error "object is not iterable"

/-- `jsmin.jsmin` wrapped in the `try/except (ValueError, TypeError)` of
`extract_json`: keep the original string when minification fails.  The
minifier itself is an external library, so it is a parameter. -/
def jsminApply (jsminF : String → Except Unit String) (s : String) : String :=
  match jsminF s with
  | Except.ok m => m
  | Except.error _ => s

/-- Modelled from the spec: the external `jsmin` comment stripper.  On
comment-free input it only normalises whitespace, which nothing downstream
depends on (JSON whitespace is insignificant and the regex stage runs on the
*original* text), so concrete instances use the identity. -/
def jsminId : String → Except Unit String := fun s => Except.ok s

/-- `full_text[full_text.find('{') : full_text.rfind('}') + 1]`, falling back
to the whole text when the slice is empty. -/
def braceSlice (cs : List Char) : List Char :=
  let js := pySlice cs (pyFind cs '{') (pyRFind cs '}' + 1)
  if js.length == 0 then cs else js

/-- `utils.extract_json(full_text, prediction_key)`: the layered fallback
parser.  Returns `(output_json, prediction, reason)`; the `Except.error` case
is the one genuine escape hatch of the Python code: when `json.loads`
produces a non-dict, `output_json.get` raises `AttributeError` and the bare
`except Exception` handler then reads the never-assigned local `prediction`,
so the call itself raises `UnboundLocalError`. -/
def extract_json (jsminF : String → Except Unit String)
    (full_text : Option String) (prediction_key : String) :
    Except String (PyVal × PyVal × PyVal) :=
  match full_text with
  | Option.none =>
      Except.ok (PyVal.dict [("raw_response", PyVal.str "")], PyVal.str "", PyVal.str "")
  | some ft =>
    let cs := ft.data
    let json_str := jsminApply jsminF (String.mk (braceSlice cs))
    match pyJsonLoads json_str with
    | some output_json =>
        match output_json with
        | PyVal.dict d =>
            let prediction := pyGet d prediction_key
            match pyLen prediction with
            | Except.ok n =>
                if n == 0 then
                  -- `match_prediction(output_json, prediction_key)`: the code
                  -- passes the parsed dict, not the substring
                  match match_prediction output_json prediction_key with
                  | Except.ok l =>
                      -- (unreachable for a dict argument; kept for fidelity)
                      Except.ok (output_json, PyVal.list (l.map PyVal.str), pyGet d "reason")
                  | Except.error e =>
                      let reason := PyVal.str ("Exception:" ++ e)
                      Except.ok (PyVal.dict [("raw_response", PyVal.str ft),
                        ("prediction", prediction), ("reason", reason)], prediction, reason)
                else Except.ok (output_json, prediction, pyGet d "reason")
            | Except.error e =>
                let reason := PyVal.str ("Exception:" ++ e)
                Except.ok (PyVal.dict [("raw_response", PyVal.str ft),
                  ("prediction", prediction), ("reason", reason)], prediction, reason)
        | _ => Except.error "cannot access local variable 'prediction' where it is not associated with a value"
    | Option.none =>
        -- json.JSONDecodeError branch
        let brSl := pySlice cs (pyFind cs '[') (pyRFind cs ']' + 1)
        let prediction : PyVal :=
          if brSl.length > 0 then
            match pyJsonLoads (String.mk brSl) with
            | some parsed =>
                match pyIterInts parsed with
                | Except.ok ints => PyVal.list (ints.map PyVal.int)
                | Except.error _ => parsed   -- coercion failed: keep parsed values
            | Option.none => PyVal.str (String.mk brSl)  -- inner loads failed: keep the slice
          else
            match match_prediction (PyVal.str ft) prediction_key with
            | Except.ok l => PyVal.list (l.map PyVal.str)
            | Except.error _ => PyVal.none   -- unreachable: the argument is a str
        Except.ok (PyVal.dict [("raw_response", PyVal.str ft),
          ("prediction", prediction), ("reason", PyVal.str "")], prediction, PyVal.str "")

/-! ## Data model: stays and trajectories (spec §3; src/processing data layout) -/

/-- One stay record
`[hour, weekday, venue_category_name, venue_id, admin, subdistrict, poi, street]`
(positions 0–7 of the Python list). -/
structure Stay where
  hour : String
  weekday : String
  category : String
  venue : Nat
  admin : String
  subdistrict : String
  poi : String
  street : String
deriving DecidableEq, Repr

/-- One address entry `[admin, subdistrict, poi, street]`. -/
structure Addr where
  admin : String
  subdistrict : String
  poi : String
  street : String
deriving DecidableEq, Repr

/-- The per-trajectory record of the generated dataset (the fields the core
components read). -/
structure TrajData where
  context_stays : List Stay
  context_pos : List (Int × Int)
  context_addr : List Addr
  historical_addr : List Addr
  historical_stays_long : List Stay
deriving DecidableEq, Repr

/-- `test_data`: userId → trajId → TrajData, as an insertion-ordered
association list (CPython dict order). -/
abbrev TestData := List (String × List (String × TrajData))

/-! ## SocialWorld: the mobility graph (src/models/world_model.py) -/

/-- `nx.Graph` as built by `from_pandas_edgelist`: an undirected weighted
graph kept as the edge list in insertion order.  (Node attributes, used only
by the textual rendering in `get_world_info`, are carried separately in
`SocialW`; persistence to GML is not modelled.) -/
structure PyGraph where
  edges : List (Nat × Nat × Nat)
deriving DecidableEq, Repr

/-- Does the stored edge `e` connect `a` and `b` (in either orientation)?
This is the undirected-edge identification of `nx.Graph`. -/
def sameEdge (a b : Nat) (e : Nat × Nat × Nat) : Bool :=
  (e.1 == a && e.2.1 == b) || (e.1 == b && e.2.1 == a)

/-- `G.add_edge(a, b, weight=w)` on an undirected graph: overwrite the weight
in place when the edge exists (keeping its position and stored orientation),
append otherwise. -/
def addEdge (g : PyGraph) (a b w : Nat) : PyGraph :=
  if g.edges.any (sameEdge a b) then
    ⟨g.edges.map (fun e => if sameEdge a b e then (e.1, e.2.1, w) else e)⟩
  else ⟨g.edges ++ [(a, b, w)]⟩

/-- `G[a][b]["weight"]` as an `Option`. -/
def edgeWeight (g : PyGraph) (a b : Nat) : Option Nat :=
  (g.edges.find? (sameEdge a b)).map (fun e => e.2.2)

/-- `G.nodes()`: every endpoint of some edge. -/
def graphNodes (g : PyGraph) : List Nat :=
  g.edges.foldl (fun acc e =>
    let acc1 := if e.1 ∈ acc then acc else acc ++ [e.1]
    if e.2.1 ∈ acc1 then acc1 else acc1 ++ [e.2.1]) []

/-- `G.neighbors(v)` in adjacency order (edge-insertion order); a self-loop
contributes `v` itself once, as in networkx. -/
def neighbors (g : PyGraph) (v : Nat) : List Nat :=
  g.edges.filterMap (fun e =>
    if e.1 == v then some e.2.1
    else if e.2.1 == v then some e.1
    else Option.none)

/-- The distinct elements of a list in first-occurrence order (the iteration
order of a CPython `Counter`/`dict` built from the list). -/
def firstOccs {α : Type} [DecidableEq α] (l : List α) : List α :=
  l.foldl (fun acc a => if a ∈ acc then acc else acc ++ [a]) []

/-- The multiplicity of `a` in `l`. -/
def countEq {α : Type} [DecidableEq α] (l : List α) (a : α) : Nat :=
  l.countP (fun b => b == a)

/-- `list(Counter(l).items())`: distinct elements in first-occurrence order,
each with its multiplicity. -/
def counterItems {α : Type} [DecidableEq α] (l : List α) : List (α × Nat) :=
  (firstOccs l).map (fun a => (a, countEq l a))

/-- The concatenated consecutive-transition stream of `build_graph`: for each
user (in dict order) take the first trajectory's `historical_stays_long`,
project to venue ids and form consecutive pairs; users without trajectories
are skipped. -/
def edgeStream (traj_dataset : TestData) : List (Nat × Nat) :=
  traj_dataset.flatMap (fun u =>
    match u.2 with
    | [] => []
    | (_, t) :: _ =>
        let venue_ids := t.historical_stays_long.map (fun x => x.venue)
        venue_ids.zip venue_ids.tail)

/-- The `edges_final` rows `(src, dst, weight)` handed to
`from_pandas_edgelist`: aggregated ordered pairs with their counts, in
first-occurrence order. -/
def edgeRows (traj_dataset : TestData) : List (Nat × Nat × Nat) :=
  (counterItems (edgeStream traj_dataset)).map (fun p => (p.1.1, p.1.2, p.2))

/-- `SocialWorld.build_graph`: aggregate the transition stream into rows and
insert them one by one into an (undirected) `nx.Graph`.  The node-attribute
pass that follows in the Python code only populates rendering attributes and
is modelled separately (`attrsOfDataset`). -/
def build_graph (traj_dataset : TestData) : PyGraph :=
  (edgeRows traj_dataset).foldl (fun g r => addEdge g r.1 r.2.1 r.2.2) ⟨[]⟩

/-- One BFS expansion step: the unseen neighbors of the frontier, in
discovery order, deduplicated. -/
def bfsNext (g : PyGraph) (seen frontier : List Nat) : List Nat :=
  (frontier.flatMap (neighbors g)).foldl
    (fun acc n => if n ∈ seen || n ∈ acc then acc else acc ++ [n]) []

/-- BFS levels 1, 2, … up to the cutoff. -/
def bfsLevels (g : PyGraph) (seen frontier : List Nat) : Nat → List (List Nat)
  | 0 => []
  | k + 1 =>
      let nxt := bfsNext g seen frontier
      if nxt.isEmpty then [] else nxt :: bfsLevels g (seen ++ nxt) nxt k

/-- Tag each level's nodes with their distance, starting at `d`. -/
def levelsWithDist : List (List Nat) → Nat → List (Nat × Nat)
  | [], _ => []
  | l :: ls, d => l.map (fun n => (n, d)) ++ levelsWithDist ls (d + 1)

/-- `nx.single_source_shortest_path_length(G, v, cutoff=k)` in discovery
order: the source at distance 0, then each BFS level. -/
def spLengths (g : PyGraph) (v : Nat) (cutoff : Nat) : List (Nat × Nat) :=
  (v, 0) :: levelsWithDist (bfsLevels g [v] [v] cutoff) 1

/-- `SocialWorld.retrival_neighbors(venue_id, context_trajs)` with the
instance's `khop`: direct neighbors at distance 1 for `khop = 1`, otherwise
all nodes within `khop` hops sorted (stably) by distance; context venues are
excluded; an absent source yields `[]`. -/
def retrival_neighbors (g : PyGraph) (khop : Nat) (venue_id : Nat)
    (context_trajs : List Nat) : List (Nat × Nat) :=
  if venue_id ∈ graphNodes g then
    if khop == 1 then
      (neighbors g venue_id).filterMap (fun n =>
        if n ∈ context_trajs then Option.none else some (n, 1))
    else
      let lengths := spLengths g venue_id khop
      let ns := lengths.filter (fun p =>
        decide (1 ≤ p.2) && decide (p.2 ≤ khop) && !(p.1 ∈ context_trajs))
      List.insertionSort (fun a b => a.2 ≤ b.2) ns
  else []

/-! ## Memory: the personal-memory unit (src/models/personal_memory.py) -/

/-- Generic insertion-ordered dict update: overwrite in place or append. -/
def dictInsert {α β : Type} [BEq α] (d : List (α × β)) (k : α) (v : β) :
    List (α × β) :=
  if d.any (fun e => e.1 == k) then
    d.map (fun e => if e.1 == k then (e.1, v) else e)
  else d ++ [(k, v)]

/-- Update an insertion-ordered dict entry through `f` (with default `d0`). -/
def dictUpdate {α β : Type} [BEq α] (d : List (α × β)) (k : α) (d0 : β)
    (f : β → β) : List (α × β) :=
  if d.any (fun e => e.1 == k) then
    d.map (fun e => if e.1 == k then (e.1, f e.2) else e)
  else d ++ [(k, f d0)]

/-- `pandas.Series.value_counts().sort_values(ascending=False)` on the values
of `l`: distinct values with multiplicities, sorted by descending count;
ties keep first-occurrence order (the spec's "stable count-preserving
order"). -/
def valueCounts {α : Type} [DecidableEq α] (l : List α) : List (α × Nat) :=
  List.insertionSort (fun a b => b.2 ≤ a.2) (counterItems l)

/-- The long-term-memory statistics assembled by `Memory.write_memory`. -/
structure LongTerm where
  venue_id_to_name : List (Nat × String)
  top_k_frequent_hours : List (String × Nat)
  top_k_frequent_venues : List (String × Nat)
  hourly_venue_count : List (String × String × Nat)
  activity_transition : List (String × Nat)
deriving DecidableEq, Repr

/-- The short-term-memory structures assembled by `Memory.write_memory`.
`last_visit` starts as the empty dict (`Option.none`) and is overwritten by
every context stay in list order. -/
structure ShortTerm where
  last_visit : Option (String × String × String × Nat)
  frequent_locations : List (String × Nat)
  visit_times : List (String × List (String × String × Nat))
deriving DecidableEq, Repr

/-- Lexicographic key order used by `pandas.groupby(['Hour',
'Venue_Category_Name'])`, which sorts group keys. -/
def lexLe (a b : String × String) : Bool :=
  a.1 < b.1 || (a.1 == b.1 && a.2 ≤ b.2)

/-- `df.groupby(['Hour','Venue_Category_Name']).size()` followed by
`.groupby('Hour').apply(lambda x: x.nlargest(1,'Count'))`: per hour (keys
sorted), the single most frequent category (first occurrence wins ties,
`nlargest` keep='first' over the key-sorted frame). -/
def hourlyVenueSummary (stays : List Stay) : List (String × String × Nat) :=
  let pairs := stays.map (fun s => (s.hour, s.category))
  let counts := List.insertionSort (fun a b => lexLe a.1 b.1 = true) (counterItems pairs)
  let hours := firstOccs (counts.map (fun e => e.1.1))
  hours.filterMap (fun h =>
    match counts.filter (fun e => e.1.1 == h) with
    | [] => Option.none
    | g :: gs =>
        let best := gs.foldl (fun acc x => if x.2 > acc.2 then x else acc) g
        some (h, best.1.2, best.2))

/-- One iteration of the short-term loop of `write_memory`: overwrite
`last_visit`, bump the location counter, append to the weekday list. -/
def shortStep (st : ShortTerm) (e : Stay) : ShortTerm :=
  { last_visit := some (e.hour, e.weekday, e.category, e.venue)
    frequent_locations := dictUpdate st.frequent_locations e.category 0 (· + 1)
    visit_times := dictUpdate st.visit_times e.weekday []
      (fun l => l ++ [(e.hour, e.category, e.venue)]) }

/-- `Memory.write_memory(known_stays, context_stays)`: derive the long-term
statistics from the (already trimmed) known stays and the short-term
structures from the context stays.  Only the first four positions of each
stay are used (`traj[:4]`). -/
def write_memory (known_stays context_stays : List Stay) :
    LongTerm × ShortTerm :=
  let venue_mapping :=
    known_stays.foldl (fun d e => dictInsert d e.venue e.category) []
  let top_hours := (valueCounts (known_stays.map (fun s => s.hour))).take 5
  let top_venues := (valueCounts (known_stays.map (fun s => s.category))).take 5
  let cats := known_stays.map (fun s => s.category)
  let transitions := valueCounts ((cats.zip cats.tail).map
    (fun p => p.1 ++ " -> " ++ p.2))
  let long : LongTerm :=
    { venue_id_to_name := venue_mapping
      top_k_frequent_hours := top_hours
      top_k_frequent_venues := top_venues
      hourly_venue_count := hourlyVenueSummary known_stays
      activity_transition := transitions }
  let short : ShortTerm := context_stays.foldl shortStep ⟨Option.none, [], []⟩
  (long, short)

/-- The `Memory` instance state: the two memories plus the configured
`memory_lens` (`memory_str_len` is the constant 1000). -/
structure Memory where
  long_term_memory : LongTerm
  short_term_memory : ShortTerm
  memory_lens : Nat
deriving DecidableEq, Repr

/-- Python `l[-n:]` on a list.  For `n = 0` the slice is `l[0:]`, i.e. the
whole list — not the empty suffix. -/
def pyTailSlice {α : Type} (l : List α) (n : Nat) : List α :=
  if n == 0 then l else l.drop (l.length - n)

/-- `Memory.__init__(know_stays, context_stays, memory_lens)`: trim the known
stays with `know_stays[-min(len(know_stays), memory_lens):]` and run
`write_memory`. -/
def mkMemory (know_stays context_stays : List Stay) (memory_lens : Nat) :
    Memory :=
  let input_lens := min know_stays.length memory_lens
  let wm := write_memory (pyTailSlice know_stays input_lens) context_stays
  { long_term_memory := wm.1, short_term_memory := wm.2,
    memory_lens := memory_lens }

/-- Python `str` of the venue-id→name dict embedded in the readout f-string. -/
def reprVenueMap (m : List (Nat × String)) : String :=
  "\x7b" ++ String.intercalate ", "
    (m.map (fun e => toString e.1 ++ ": '" ++ e.2 ++ "'")) ++ "\x7d"

/-- `Memory.long_term_memory_readout`. -/
def long_term_memory_readout (lt : LongTerm) : String :=
  let frequent_hours := String.intercalate ", " (lt.top_k_frequent_hours.map
    (fun i => i.1 ++ " (" ++ toString i.2 ++ " times)"))
  let frequent_venues := String.intercalate ", " (lt.top_k_frequent_venues.map
    (fun i => i.1 ++ " (" ++ toString i.2 ++ " times)"))
  let hourly_activity := lt.hourly_venue_count.foldl (fun d i =>
    dictUpdate d i.1 [] (fun l => l ++ [i.2.1 ++ " (" ++ toString i.2.2 ++ " times)"])) []
  let hourly_activity_desc := String.intercalate ", " (hourly_activity.map
    (fun e => e.1 ++ ": " ++ String.intercalate ", " e.2))
  let transitions := String.intercalate ", " (lt.activity_transition.map
    (fun i => i.1 ++ " (" ++ toString i.2 ++ " times)"))
  "place id to name mapping: " ++ reprVenueMap lt.venue_id_to_name ++ ". " ++
  "In historical stays, The user frequently engages in activities at " ++
  frequent_hours ++ ". The most frequently visited venues are " ++
  frequent_venues ++ ". Hourly venue activities include " ++
  hourly_activity_desc ++
  ". The user's activity transitions often include sequences such as " ++
  transitions ++ "."

/-- `Memory.short_term_memory_readout`: raises `KeyError('day')` when
`last_visit` is still the empty dict (no context stays were written). -/
def short_term_memory_readout (st : ShortTerm) : Except String String :=
  match st.last_visit with
  | Option.none => Except.error "'day'"
  | some lv =>
      let locations_str := String.intercalate ", " (st.frequent_locations.map
        (fun e => e.1 ++ " (" ++ toString e.2 ++ " times)"))
      let times_str := String.intercalate "; " (st.visit_times.map
        (fun e => e.1 ++ ": " ++ String.intercalate ", " (e.2.map
          (fun v => v.1 ++ " at " ++ v.2.1 ++ " (ID: " ++ toString v.2.2 ++ ")"))))
      Except.ok ("In recent context Stays, User's last visit was on " ++ lv.2.1 ++
        " at " ++ lv.1 ++ " to " ++ lv.2.2.1 ++ " (ID: " ++ toString lv.2.2.2 ++
        "). " ++ "Frequently visited locations include: " ++ locations_str ++
        ". " ++ "Visit times: " ++ times_str ++ ".")

/-- `Memory.user_profile_generation`: `max(..., key=Count)` over the top-k
lists (raising `ValueError` on an empty sequence), then the ordered
cluster-intersection insight rules. -/
def user_profile_generation (lt : LongTerm) : Except String String :=
  match lt.top_k_frequent_hours, lt.top_k_frequent_venues with
  | [], _ => Except.error "max() arg is an empty sequence"
  | _ :: _, [] => Except.error "max() arg is an empty sequence"
  | h :: hs, v :: vs =>
      let most_frequent_hour := hs.foldl (fun acc x => if x.2 > acc.2 then x else acc) h
      let most_frequent_venue := vs.foldl (fun acc x => if x.2 > acc.2 then x else acc) v
      let hours_set := (h :: hs).map (fun e => e.1)
      let venues_set := (v :: vs).map (fun e => e.1)
      let inter (s : List String) (cluster : List String) : Bool :=
        s.any (fun x => cluster.contains x)
      let insights : List String :=
        (if inter hours_set ["5 PM", "6 PM", "8 PM"] then ["enjoys evening activities"] else []) ++
        (if inter hours_set ["8 AM", "9 AM", "5 PM", "6 PM"] then ["maintains a regular lifestyle"] else []) ++
        (if inter hours_set ["10 PM", "11 PM", "12 AM", "1 AM", "2 AM"] then ["enjoys nightlife"] else []) ++
        (if inter venues_set ["Bus Station", "Train Station"] then ["has a fixed commute"] else []) ++
        (if inter venues_set ["Beach", "Park", "Cafe", "Food & Drink Shop", "Restaurant"] then ["enjoys leisure activities"] else []) ++
        (if inter venues_set ["Department Store", "Clothing Store", "Cosmetics Shop"] then ["frequently shops for clothes and cosmetics"] else []) ++
        (if inter venues_set ["Gym / Fitness Center"] then ["is health conscious and regularly visits the gym"] else []) ++
        (if inter venues_set ["Burger Joint", "Thai Restaurant", "Coffee Shop", "Food & Drink Shop"] then ["enjoys trying different types of food and drinks"] else [])
      let insights_str :=
        if insights.isEmpty then "has diverse interests"
        else String.intercalate ", " insights
      Except.ok ("The user is most active at " ++ most_frequent_hour.1 ++
        " with " ++ toString most_frequent_hour.2 ++ " visits. " ++
        "They frequently visit " ++ most_frequent_venue.1 ++
        " with " ++ toString most_frequent_venue.2 ++ " visits." ++
        "Based on the data, the user " ++ insights_str ++ ".")

/-- `Memory.memory_compress`: `None` (no compression needed) unless the
prompt reaches twice `memory_str_len = 1000` characters. -/
def memory_compress (memory_prompt : String) : Option String :=
  if memory_prompt.length ≥ 2000 then
    some (memory_prompt.take 1000 ++ "\n......\n" ++
      memory_prompt.drop (memory_prompt.length - 1000))
  else Option.none

/-- The record returned by `Memory.read_memory`. -/
structure ReadMem where
  historical_info : String
  context_info : String
  user_profile : String
  target_stay : PyVal
deriving Repr

/-- `Memory.read_memory(user_id, target_stay)`: render the three prompts
(compressing the long-term one only in `memory_lens == 0` mode); any
exception in the renderers propagates. -/
def read_memory (m : Memory) (_user_id : String) (target_stay : PyVal) :
    Except String ReadMem :=
  let long0 := long_term_memory_readout m.long_term_memory
  let long :=
    if m.memory_lens == 0 then
      match memory_compress long0 with
      | some c => c
      | Option.none => long0
    else long0
  match short_term_memory_readout m.short_term_memory with
  | Except.error e => Except.error e
  | Except.ok short =>
      match user_profile_generation m.long_term_memory with
      | Except.error e => Except.error e
      | Except.ok prof =>
          Except.ok { historical_info := long, context_info := short,
                      user_profile := prof, target_stay := target_stay }

/-! ## SpatialWorld prompts and info (src/models/world_model.py) -/

/-- Generic association-list lookup. -/
def alookup {α β : Type} [BEq α] (l : List (α × β)) (k : α) : Option β :=
  (l.find? (fun e => e.1 == k)).map (fun e => e.2)

/-- Python `str` of a list of strings. -/
def reprStrList (l : List String) : String :=
  "[" ++ String.intercalate ", " (l.map (fun s => "'" ++ s ++ "'")) ++ "]"

/-- Python `str` of a pair of strings. -/
def reprStrPair (p : String × String) : String :=
  "('" ++ p.1 ++ "', '" ++ p.2 ++ "')"

/-- `SpatialWorld.__init__`'s `traj_pos`: the trailing `max_history = 50`
historical address entries plus all context entries, each rearranged to
`[admin, subdistrict, street, poi]` (`[his[0], his[1], his[3], his[2]]`). -/
def spatialSeqs (t : TrajData) : List (String × String × String × String) :=
  let hlen := min t.historical_addr.length 50
  let historical := (pyTailSlice t.historical_addr hlen).map
    (fun a => (a.admin, a.subdistrict, a.street, a.poi))
  let context := t.context_addr.map (fun a => (a.admin, a.subdistrict, a.street, a.poi))
  historical ++ context

/-- The subdistrict query sent to the reasoning capability.  (Python renders
`list(set(...))` for the administrative areas; the model uses
first-occurrence order for that set.) -/
def subdistrictPrompt (t : TrajData) (explore_num : Nat) : String :=
  let tp := spatialSeqs t
  let administrative_area := firstOccs (tp.map (fun r => r.1))
  let subdistricts := tp.map (fun r => r.2.1)
  "This trajectory moves within following administrative areas:\n" ++
  reprStrList administrative_area ++ "\n" ++
  "This trajectory sequentially visited following subdistricts, " ++
  "with the last subdistrict being the most recently visited:\n" ++
  String.intercalate ";" subdistricts ++
  "Consider about following two aspects:\n" ++
  "1.The frequency each subdistrict is visited.\n" ++
  "2.Transition probability between two administrative areas.\n" ++
  "Please predict the next subdistrict in the trajectory. " ++
  "Give " ++ toString explore_num ++
  " subdistricts that are relatively likely to be visited. " ++
  "Do not output other content."

/-- The POI query sent to the reasoning capability; each POI renders as the
tuple `(poi, street)` (`(addr[3], addr[2])` of the rearranged entry). -/
def poiPrompt (t : TrajData) (explore_num : Nat) : String :=
  let tp := spatialSeqs t
  let pois := tp.map (fun r => (r.2.2.2, r.2.2.1))
  "This trajectory sequentially visited following POIs" ++
  "(Each POI is represented by 'POI name, the feeder road or access road it is on'), " ++
  "with the last POI being the most recently visited:\n" ++
  String.intercalate ";" (pois.map reprStrPair) ++
  "Consider about following two aspects:\n" ++
  "1.The frequency each subdistrict is visited\n" ++
  "2.The frequency each poi is visited\n" ++
  "3.Transition probability between two subdistricts.\n" ++
  "4.Transition probability between two pois." ++
  "Please predict the next poi in the trajectory." ++
  "Give " ++ toString explore_num ++
  " POIs that are relatively likely to be visited. " ++
  "Do not output other content."

/-- `SpatialWorld.get_world_info`: format the two raw responses (a `None`
response renders as the string `None`), truncating to the trailing
`max_lens = 1000` characters when longer. -/
def spatialWorldInfo (r1 r2 : Option String) : String :=
  let s1 := match r1 with | some s => s | Option.none => "None"
  let s2 := match r2 with | some s => s | Option.none => "None"
  let p := "\n### Names of subdistricts that are relatively likely to be visited:\n" ++
    s1 ++ "\n### Names of POIs that are relatively likely to be visited:\n" ++
    s2 ++ "\n        "
  if p.length ≤ 1000 then p else p.drop (p.length - 1000)

/-! ## SocialWorld rendering and DemoAgent.predict (src/app/backend/demo_agent.py) -/

/-- A built `SocialWorld`: the graph plus the node attributes the renderer
reads (`category`, `street`, `poi`; written last-row-wins by the attribute
pass of `build_graph`). -/
structure SocialW where
  graph : PyGraph
  attrs : List (Nat × (String × String × String))
  khop : Nat
  max_neighbors : Nat
deriving Repr

/-- The `nodes_df` rows of `build_graph`: every stay of each user's first
trajectory. -/
def nodeRows (ds : TestData) : List Stay :=
  ds.flatMap (fun u =>
    match u.2 with
    | [] => []
    | (_, t) :: _ => t.historical_stays_long)

/-- `SocialWorld(...)` as `predict` builds it (khop and max_neighbors from
the constructor call): build the graph and run the node-attribute pass.
`graph.nodes[node]` raises `KeyError` for a venue that ends up in no edge;
`predict` catches any such construction failure and continues without a
social world, so that case yields `Option.none`. -/
def socialFromDataset (ds : TestData) (khop max_neighbors : Nat) : Option SocialW :=
  let g := build_graph ds
  let rows := nodeRows ds
  if rows.all (fun s => s.venue ∈ graphNodes g) then
    some { graph := g
           attrs := rows.foldl (fun d s => dictInsert d s.venue (s.category, s.street, s.poi)) []
           khop := khop, max_neighbors := max_neighbors }
  else Option.none

/-- The neighbor-collection loop of `SocialWorld.get_world_info`: group the
rendered entries by hop distance, stopping once `max_neighbors` entries have
been collected (the boundary item is included before the break). -/
def socialInfoLoop (sw : SocialW) (ty : String) :
    List (Nat × Nat) → Nat → List (Nat × List String) → List (Nat × List String)
  | [], _, acc => acc
  | (n, f) :: rest, count, acc =>
      let a := (alookup sw.attrs n).getD ("", "", "")
      let info :=
        if ty == "all" then
          String.intercalate "," [toString n, a.1, a.2.2, a.2.1]
        else if ty == "category" then a.1
        else if ty == "address" then String.intercalate "," [a.2.1, a.2.2]
        else if ty == "id" then toString n
        else String.intercalate "," [toString n, a.1, a.2.2, a.2.1]
      let acc' := dictUpdate acc f [] (fun l => l ++ [info])
      if count ≥ sw.max_neighbors then acc'
      else socialInfoLoop sw ty rest (count + 1) acc'

/-- `SocialWorld.get_world_info(venue_id, context_traj, type)`: retrieve
neighbors of the last venue (a `None` venue is in no node set, so the
retrieval is empty) and emit one line per hop-distance group. -/
def social_get_world_info (sw : SocialW) (venue_id : Option Nat)
    (context : List Nat) (ty : String) : String :=
  let ns := match venue_id with
    | some v => retrival_neighbors sw.graph sw.khop v context
    | Option.none => []
  let info := socialInfoLoop sw ty ns 0 []
  String.intercalate "\n" (info.map (fun e =>
    toString e.1 ++ "-hop neighbor places in the social world:\n " ++
    String.intercalate "\n" e.2))

/-- Modelled from the spec: `prompt_generator` (src/models/prompts.py is not
part of the provided sources).  Spec §6: a pure function
`(trajectory, promptType, spatialInfo, memoryInfo, socialInfo, extra) ->
promptText`; nothing downstream inspects its output, so any total
composition is faithful. -/
def prompt_generator (t : TrajData) (prompt_type : String)
    (spatial_info : String) (memory_info : ReadMem) (social_info : String) :
    String :=
  prompt_type ++ "\n" ++ spatial_info ++ "\n" ++ memory_info.historical_info ++
  "\n" ++ memory_info.context_info ++ "\n" ++ memory_info.user_profile ++
  "\n" ++ social_info ++ "\n" ++ toString t.context_stays.length

/-- The ground-truth record of one trajectory. -/
structure Ground where
  ground_stay : PyVal
  ground_pos : Int × Int
  ground_addr : String
deriving Repr

/-- The `DemoAgent` state that `predict` reads. -/
structure DemoState where
  city_name : String
  test_data : TestData
  ground_data : List (String × List (String × Ground))
  memory_units : List (String × Memory)
  social_world : Option SocialW
  dataset : Option TestData
deriving Repr

/-- The fields of `predict`'s result dict that the claims examine
(`prediction.venue_id`, `prediction.explanation`, identifiers, ground
truth).  Purely decorative fields (context trajectory echo, truncated prompt
and raw response, model label) are not modelled. -/
structure PredictResult where
  res_user_id : String
  res_traj_id : String
  res_prompt_type : String
  prediction_venue : PyVal
  explanation : PyVal
  ground_truth_venue : PyVal
deriving Repr

/-- `predict`'s user selection: an absent or unknown `user_id` silently falls
back to the first user; `ValueError` only when there is no data at all. -/
def selectUser (st : DemoState) (user_id : Option String) : Except String String :=
  let fallback : Except String String :=
    match st.test_data with
    | [] => Except.error "No trajectory data available"
    | (u, _) :: _ => Except.ok u
  match user_id with
  | some u => if (alookup st.test_data u).isSome then Except.ok u else fallback
  | Option.none => fallback

/-- `predict`'s trajectory selection for the (already selected) user. -/
def selectTraj (udata : List (String × TrajData)) (uid : String)
    (traj_id : Option String) : Except String String :=
  let fallback : Except String String :=
    match udata with
    | [] => Except.error ("No trajectories found for user " ++ uid)
    | (t, _) :: _ => Except.ok t
  match traj_id with
  | some t => if (alookup udata t).isSome then Except.ok t else fallback
  | Option.none => fallback

/-- The memory unit `predict` uses: the cached one, or a fresh
`Memory(know_stays_of_first_trajectory, context_stays, 15)`. -/
def predictMemory (st : DemoState) (uid : String)
    (udata : List (String × TrajData)) (traj : TrajData) : Memory :=
  match alookup st.memory_units uid with
  | some m => m
  | Option.none =>
      let know := match udata with
        | [] => []
        | (_, t0) :: _ => t0.historical_stays_long
      mkMemory know traj.context_stays 15

/-- `DemoAgent.predict(city_name, user_id, traj_id, prompt_type)`.  The two
LLM clients (the `SpatialWorld`'s own wrapper and the agent's) are oracles
returning the final outcome of the retry-wrapped call: a response text
(possibly `None`) or the raised failure.  `city_name` is never validated.
Spatial-query failures and memory-read failures propagate; only the final
reasoning call plus parse is guarded by the `try/except` that substitutes
the ground-truth venue. -/
def predict (spatialLLM mainLLM : String → Except String (Option String))
    (jsminF : String → Except Unit String) (st : DemoState)
    (_city_name : String) (user_id traj_id : Option String)
    (prompt_type : String) : Except String PredictResult :=
  match selectUser st user_id with
  | Except.error e => Except.error e
  | Except.ok uid =>
    let udata := (alookup st.test_data uid).getD []
    match selectTraj udata uid traj_id with
    | Except.error e => Except.error e
    | Except.ok tid =>
      let traj := (alookup udata tid).getD ⟨[], [], [], [], []⟩
      let ground : Option Ground :=
        match alookup st.ground_data uid with
        | some gd => alookup gd tid
        | Option.none => Option.none
      let social : Option SocialW :=
        match st.social_world with
        | some sw => some sw
        | Option.none =>
            match st.dataset with
            | some ds => socialFromDataset ds 1 10
            | Option.none => Option.none
      match spatialLLM (subdistrictPrompt traj 5) with
      | Except.error e => Except.error e
      | Except.ok r1 =>
      match spatialLLM (poiPrompt traj 5) with
      | Except.error e => Except.error e
      | Except.ok r2 =>
        let mem := predictMemory st uid udata traj
        match read_memory mem uid PyVal.none with
        | Except.error e => Except.error e
        | Except.ok memory_info =>
          let spatial_info := spatialWorldInfo r1 r2
          let social_info := match social with
            | some sw =>
                social_get_world_info sw
                  ((traj.context_stays.getLast?).map (fun s => s.venue))
                  (traj.context_stays.map (fun s => s.venue)) "address"
            | Option.none => ""   -- Python passes {} here; only the composer sees it
          let prompt_text :=
            prompt_generator traj prompt_type spatial_info memory_info social_info
          let attempt : Except String (PyVal × PyVal × PyVal) :=
            match mainLLM prompt_text with
            | Except.ok pre_text => extract_json jsminF pre_text "prediction"
            | Except.error e => Except.error e
          let pr : PyVal × PyVal :=
            match attempt with
            | Except.ok t => (t.2.1, t.2.2)
            | Except.error e =>
                (match ground with
                 | some g => g.ground_stay
                 | Option.none => PyVal.str "Unknown",
                 PyVal.str ("Prediction failed due to: " ++ e.take 100))
          Except.ok
            { res_user_id := uid, res_traj_id := tid,
              res_prompt_type := prompt_type,
              prediction_venue := pr.1, explanation := pr.2,
              ground_truth_venue :=
                match ground with
                | some g => g.ground_stay
                | Option.none => PyVal.none }

/-! ## Concrete data used by the closed instances -/

/-- A stay at venue `v` (shared by the concrete examples below). -/
def exStay (v : Nat) : Stay :=
  { hour := "8", weekday := "Monday", category := "Office", venue := v,
    admin := "Pudong", subdistrict := "Lujiazui", poi := "Tower", street := "Road" }

/-- A second stay shape with a different hour/category. -/
def exStay2 (v : Nat) : Stay :=
  { hour := "18", weekday := "Tuesday", category := "Restaurant", venue := v,
    admin := "Pudong", subdistrict := "Lujiazui", poi := "Plaza", street := "Lane" }

/-- A trajectory whose first historical list visits the given venues. -/
def exTraj (vs : List Nat) : TrajData :=
  { context_stays := [], context_pos := [], context_addr := [],
    historical_addr := [], historical_stays_long := vs.map exStay }

/-- Single user looping `1 → 2` three times and `2 → 1` twice. -/
def dsLoop : TestData := [("u", [("t", exTraj [1, 2, 1, 2, 1, 2])])]

/-- Three users: two observe `1 → 2`, one observes `2 → 1`. -/
def dsUserA : String × List (String × TrajData) := ("A", [("t", exTraj [1, 2])])
def dsUserC : String × List (String × TrajData) := ("C", [("t", exTraj [1, 2])])
def dsUserB : String × List (String × TrajData) := ("B", [("t", exTraj [2, 1])])

/-- One processing order of the three users. -/
def dsOrder1 : TestData := [dsUserA, dsUserC, dsUserB]

/-- A permutation of `dsOrder1`. -/
def dsOrder2 : TestData := [dsUserB, dsUserA, dsUserC]

/-- A user who stays at venue 5 twice in a row: the graph gets a self-loop. -/
def dsSelfLoop : TestData := [("u", [("t", exTraj [5, 5])])]

/-- A path-shaped dataset: venues `1-2-3` and `2-4`. -/
def dsPath : TestData := [("u", [("t", exTraj [1, 2, 3, 2, 4])])]

/-- An address entry for the demo trajectory. -/
def exAddr : Addr :=
  { admin := "Pudong", subdistrict := "Lujiazui", poi := "Home", street := "Century Avenue" }

/-- The demo trajectory for the `predict` instances. -/
def exDemoTraj : TrajData :=
  { context_stays := [exStay 1, exStay2 4]
    context_pos := [(121, 31), (121, 31)]
    context_addr := [exAddr, exAddr]
    historical_addr := [exAddr]
    historical_stays_long := [exStay 1, exStay2 4, exStay 1] }

/-- The demo ground truth. -/
def exGround : Ground :=
  { ground_stay := PyVal.int 2, ground_pos := (121, 31), ground_addr := "Office, Pudong" }

/-- A `DemoAgent` state with one user `u1` owning one trajectory `t1`
(dataset loading failed, so `dataset` is `None` and no social world is
built — the mock-data configuration of `_load_dataset`). -/
def exDemoState : DemoState :=
  { city_name := "Shanghai"
    test_data := [("u1", [("t1", exDemoTraj)])]
    ground_data := [("u1", [("t1", exGround)])]
    memory_units := []
    social_world := Option.none
    dataset := Option.none }

/-- An always-succeeding reasoning capability. -/
def llmOk : String → Except String (Option String) := fun _ => Except.ok (some "resp")

/-- A reasoning capability whose retry budget is always exhausted. -/
def llmFail : String → Except String (Option String) :=
  fun _ => Except.error "ConnectionError"

/-! ## Helper lemmas on the accumulator folds -/

theorem mem_foldl_dedup {α : Type} [DecidableEq α] (l : List α) (acc : List α) (x : α) :
    x ∈ l.foldl (fun acc a => if a ∈ acc then acc else acc ++ [a]) acc ↔
      x ∈ acc ∨ x ∈ l := by
  induction l generalizing acc with
  | nil => simp
  | cons a l ih =>
      simp only [List.foldl_cons, ih, List.mem_cons]
      by_cases h : a ∈ acc
      · simp only [if_pos h]
        constructor
        · rintro (hx | hx)
          · exact Or.inl hx
          · exact Or.inr (Or.inr hx)
        · rintro (hx | rfl | hx)
          · exact Or.inl hx
          · exact Or.inl h
          · exact Or.inr hx
      · simp only [if_neg h, List.mem_append, List.mem_singleton]
        tauto

theorem nodup_foldl_dedup {α : Type} [DecidableEq α] (l : List α) (acc : List α)
    (h : acc.Nodup) :
    (l.foldl (fun acc a => if a ∈ acc then acc else acc ++ [a]) acc).Nodup := by
  induction l generalizing acc with
  | nil => simpa
  | cons a l ih =>
      simp only [List.foldl_cons]
      by_cases ha : a ∈ acc
      · simpa [if_pos ha] using ih acc h
      · refine ih _ ?_
        simp [List.nodup_append, h, ha]

theorem mem_firstOccs {α : Type} [DecidableEq α] (l : List α) (x : α) :
    x ∈ firstOccs l ↔ x ∈ l := by
  simpa [firstOccs] using mem_foldl_dedup l [] x

theorem nodup_firstOccs {α : Type} [DecidableEq α] (l : List α) :
    (firstOccs l).Nodup :=
  nodup_foldl_dedup l [] List.nodup_nil

theorem countEq_pos {α : Type} [DecidableEq α] (l : List α) (a : α) :
    0 < countEq l a ↔ a ∈ l := by
  simp [countEq, List.countP_pos]

theorem mem_counterItems {α : Type} [DecidableEq α] (l : List α) (p : α × Nat) :
    p ∈ counterItems l ↔ p.1 ∈ l ∧ p.2 = countEq l p.1 := by
  constructor
  · intro hp
    simp only [counterItems, List.mem_map] at hp
    obtain ⟨a, ha, rfl⟩ := hp
    exact ⟨(mem_firstOccs l a).1 ha, rfl⟩
  · rintro ⟨h1, h2⟩
    simp only [counterItems, List.mem_map]
    exact ⟨p.1, (mem_firstOccs l p.1).2 h1, by rw [← h2]⟩

theorem nodup_counterItems {α : Type} [DecidableEq α] (l : List α) :
    (counterItems l).Nodup :=
  (nodup_firstOccs l).map (fun a b hab => congrArg Prod.fst hab)

/-! ## Helper lemmas on undirected edge insertion -/

theorem sameEdge_weight_irrel (a b x y : Nat) (w1 w2 : Nat) :
    sameEdge a b (x, y, w1) = sameEdge a b (x, y, w2) := rfl

theorem sameEdge_iff (a b : Nat) (e : Nat × Nat × Nat) :
    sameEdge a b e = true ↔ (e.1 = a ∧ e.2.1 = b) ∨ (e.1 = b ∧ e.2.1 = a) := by
  simp [sameEdge]

theorem sameEdge_key {a b a' b' w : Nat} (h : sameEdge a b (a', b', w) = true)
    (e : Nat × Nat × Nat) : sameEdge a' b' e = sameEdge a b e := by
  rcases (sameEdge_iff a b (a', b', w)).1 h with ⟨h1, h2⟩ | ⟨h1, h2⟩ <;>
    subst h1 <;> subst h2
  · rfl
  · simp [sameEdge, Bool.or_comm]

theorem sameEdge_not_both {a b a' b' w : Nat}
    (h : sameEdge a b (a', b', w) = false) (e : Nat × Nat × Nat)
    (hq : sameEdge a' b' e = true) : sameEdge a b e = false := by
  rcases (sameEdge_iff a' b' e).1 hq with ⟨h1, h2⟩ | ⟨h1, h2⟩ <;>
    rw [← h1, ← h2] at h <;>
    [skip; rw [show sameEdge a b (e.2.1, e.1, w) = sameEdge a b (e.1, e.2.1, w) by
      simp [sameEdge, Bool.or_comm, Bool.and_comm]] at h] <;>
  · cases hv : sameEdge a b e
    · rfl
    · rw [show sameEdge a b (e.1, e.2.1, w) =
            sameEdge a b (e.1, e.2.1, e.2.2) from rfl] at h
      simp only [show (e.1, e.2.1, e.2.2) = e from rfl] at h
      rw [hv] at h
      exact absurd h (by simp)

theorem find?_weight_overwrite (p : Nat × Nat × Nat → Bool) (w : Nat)
    (hp : ∀ x y w1 w2, p (x, y, w1) = p (x, y, w2))
    (l : List (Nat × Nat × Nat)) (hany : l.any p = true) :
    ((l.map (fun e => if p e then (e.1, e.2.1, w) else e)).find? p).map
      (fun e => e.2.2) = some w := by
  induction l with
  | nil => simp at hany
  | cons e t ih =>
      by_cases he : p e = true
      · have hpe : p (e.1, e.2.1, w) = true := by
          rw [hp e.1 e.2.1 w e.2.2]
          simpa using he
        simp [he, List.find?_cons, hpe]
      · have hany' : t.any p = true := by
          simp only [List.any_cons, he] at hany
          simpa using hany
        rw [List.map_cons, if_neg he, List.find?_cons_of_neg _ he]
        exact ih hany'

theorem find?_map_noeffect (p q : Nat × Nat × Nat → Bool) (w : Nat)
    (hdisj : ∀ e, q e = true → p e = false)
    (hq : ∀ x y w1 w2, q (x, y, w1) = q (x, y, w2))
    (l : List (Nat × Nat × Nat)) :
    (l.map (fun e => if q e then (e.1, e.2.1, w) else e)).find? p = l.find? p := by
  induction l with
  | nil => rfl
  | cons e t ih =>
      by_cases he : q e = true
      · have h1 : p e = false := hdisj e he
        have h2 : p (e.1, e.2.1, w) = false := by
          have : q (e.1, e.2.1, w) = true := by
            rw [hq e.1 e.2.1 w e.2.2]; simpa using he
          exact hdisj _ this
        simp [he, List.find?_cons, h1, h2, ih]
      · simp only [List.map_cons, if_neg he]
        rw [List.find?_cons, List.find?_cons]
        cases hpe : p e
        · exact ih
        · rfl

theorem edgeWeight_addEdge (g : PyGraph) (a' b' w a b : Nat) :
    edgeWeight (addEdge g a' b' w) a b =
      if sameEdge a b (a', b', w) = true then some w else edgeWeight g a b := by
  by_cases hk : sameEdge a b (a', b', w) = true
  · have hke := sameEdge_key hk
    simp only [hk, if_pos]
    by_cases hany : g.edges.any (sameEdge a' b') = true
    · unfold addEdge edgeWeight
      simp only [hany, if_pos]
      have := find?_weight_overwrite (sameEdge a b) w
        (fun x y w1 w2 => rfl) g.edges (by
          rw [List.any_eq_true] at hany ⊢
          obtain ⟨e, he, hpe⟩ := hany
          exact ⟨e, he, by rw [← hke e]; exact hpe⟩)
      rw [show (g.edges.map (fun e => if sameEdge a' b' e then (e.1, e.2.1, w) else e)) =
            (g.edges.map (fun e => if sameEdge a b e then (e.1, e.2.1, w) else e)) by
        exact List.map_congr_left (fun e _ => by rw [hke e])]
      exact this
    · unfold addEdge edgeWeight
      simp only [hany]
      have hno : g.edges.find? (sameEdge a b) = Option.none := by
        rw [List.find?_eq_none]
        intro e he
        have : ¬ (g.edges.any (sameEdge a' b') = true) := hany
        rw [List.any_eq_true] at this
        push_neg at this
        have h2 := this e he
        rw [hke e] at h2
        simpa using h2
      simp [List.find?_append, hno, List.find?_cons, hk]
  · have hkf : sameEdge a b (a', b', w) = false := by simpa using hk
    simp only [hkf, Bool.false_eq_true, if_neg, ite_false]
    by_cases hany : g.edges.any (sameEdge a' b') = true
    · unfold addEdge edgeWeight
      simp only [hany, if_pos]
      rw [find?_map_noeffect (sameEdge a b) (sameEdge a' b') w
        (fun e => sameEdge_not_both hkf e) (fun x y w1 w2 => rfl) g.edges]
    · unfold addEdge edgeWeight
      simp only [hany]
      simp [List.find?_append, List.find?_cons, hkf]

theorem edgeWeight_foldl (rows : List (Nat × Nat × Nat)) :
    ∀ (g : PyGraph) (a b : Nat),
    edgeWeight (rows.foldl (fun g r => addEdge g r.1 r.2.1 r.2.2) g) a b =
      (match (rows.filter (sameEdge a b)).getLast? with
       | some r => some r.2.2
       | Option.none => edgeWeight g a b) := by
  induction rows with
  | nil => intro g a b; rfl
  | cons r t ih =>
      intro g a b
      rw [List.foldl_cons, ih (addEdge g r.1 r.2.1 r.2.2) a b]
      by_cases hp : sameEdge a b r = true
      · rw [List.filter_cons_of_pos hp]
        cases hfl : (t.filter (sameEdge a b)).getLast? with
        | some r' => simp [List.getLast?_cons, hfl]
        | none =>
            simp only [List.getLast?_cons, hfl, Option.getD_none]
            rw [edgeWeight_addEdge]
            have : sameEdge a b (r.1, r.2.1, r.2.2) = true := hp
            simp [this]
      · rw [List.filter_cons_of_neg (by simpa using hp)]
        cases hfl : (t.filter (sameEdge a b)).getLast? with
        | some r' => simp
        | none =>
            simp only
            rw [edgeWeight_addEdge]
            have : sameEdge a b (r.1, r.2.1, r.2.2) = false := by simpa using hp
            simp [this]

/-- Core weight characterisation of the built graph, used by the C5 theorem:
an observed ordered transition yields one (undirected) edge whose weight is
the count of one of the two orientations. -/
theorem build_graph_weight_spec (ds : TestData) (a b : Nat)
    (h : 0 < countEq (edgeStream ds) (a, b)) :
    ∃ w, edgeWeight (build_graph ds) a b = some w ∧ 1 ≤ w ∧
      (w = countEq (edgeStream ds) (a, b) ∨ w = countEq (edgeStream ds) (b, a)) ∧
      (countEq (edgeStream ds) (b, a) = 0 → w = countEq (edgeStream ds) (a, b)) := by
  have hmem : ((a, b), countEq (edgeStream ds) (a, b)) ∈ counterItems (edgeStream ds) :=
    (mem_counterItems _ _).2 ⟨(countEq_pos _ _).1 h, rfl⟩
  have hrow : ((a, b, countEq (edgeStream ds) (a, b)) : Nat × Nat × Nat) ∈ edgeRows ds := by
    simp only [edgeRows, List.mem_map]
    exact ⟨((a, b), countEq (edgeStream ds) (a, b)), hmem, rfl⟩
  have hfmem : ((a, b, countEq (edgeStream ds) (a, b)) : Nat × Nat × Nat) ∈
      (edgeRows ds).filter (sameEdge a b) :=
    List.mem_filter.2 ⟨hrow, by simp [sameEdge]⟩
  obtain ⟨r, hr⟩ : ∃ r, ((edgeRows ds).filter (sameEdge a b)).getLast? = some r :=
    Option.isSome_iff_exists.1 (List.getLast?_isSome.2 (List.ne_nil_of_mem hfmem))
  have hrmem : r ∈ (edgeRows ds).filter (sameEdge a b) := by
    have hr' := hr
    rw [List.getLast?_eq_some_iff] at hr'
    obtain ⟨ys, hys⟩ := hr'
    rw [hys]
    simp
  obtain ⟨hrrows, hrsame⟩ := List.mem_filter.1 hrmem
  simp only [edgeRows, List.mem_map] at hrrows
  obtain ⟨p, hpmem, hpr⟩ := hrrows
  obtain ⟨hps, hpc⟩ := (mem_counterItems _ _).1 hpmem
  have hkey : p.1 = (a, b) ∨ p.1 = (b, a) := by
    rw [← hpr] at hrsame
    rcases (sameEdge_iff a b _).1 hrsame with ⟨h1, h2⟩ | ⟨h1, h2⟩
    · left
      exact Prod.ext h1 h2
    · right
      exact Prod.ext h1 h2
  have hw : r.2.2 = countEq (edgeStream ds) p.1 := by
    rw [← hpr]
    exact hpc
  refine ⟨r.2.2, ?_, ?_, ?_, ?_⟩
  · rw [build_graph, edgeWeight_foldl, hr]
  · rw [hw]
    exact (countEq_pos _ _).2 hps
  · rcases hkey with hk | hk <;> rw [hw, hk]
    · exact Or.inl rfl
    · exact Or.inr rfl
  · intro hba
    rcases hkey with hk | hk
    · rw [hw, hk]
    · exfalso
      rw [hk] at hps
      have := (countEq_pos _ _).2 hps
      omega

/-- `countEq` is invariant under permutation. -/
theorem countEq_perm {α : Type} [DecidableEq α] {l1 l2 : List α}
    (h : l1.Perm l2) (a : α) : countEq l1 a = countEq l2 a :=
  h.countP_eq _

/-- The aggregated counter rows of two permuted streams are permutations of
one another. -/
theorem counterItems_perm {α : Type} [DecidableEq α] {l1 l2 : List α}
    (h : l1.Perm l2) : (counterItems l1).Perm (counterItems l2) := by
  rw [List.perm_ext_iff_of_nodup (nodup_counterItems l1) (nodup_counterItems l2)]
  intro p
  rw [mem_counterItems, mem_counterItems, h.mem_iff, countEq_perm h]

/-- Permuting the user processing order permutes the `(src, dst, weight)`
aggregation rows (C6's salvageable core). -/
theorem edgeRows_perm {d1 d2 : TestData} (h : d1.Perm d2) :
    (edgeRows d1).Perm (edgeRows d2) := by
  have hs : (edgeStream d1).Perm (edgeStream d2) := List.Perm.flatMap_right _ h
  exact (counterItems_perm hs).map _

/-! ## Helper lemmas on the BFS retrieval -/

theorem mem_foldl_dedup_seen (seen : List Nat) (l : List Nat) (acc : List Nat)
    (x : Nat) :
    x ∈ l.foldl (fun acc n => if n ∈ seen || n ∈ acc then acc else acc ++ [n]) acc ↔
      x ∈ acc ∨ (x ∈ l ∧ x ∉ seen) := by
  induction l generalizing acc with
  | nil => simp
  | cons n l ih =>
      simp only [List.foldl_cons, ih, List.mem_cons]
      by_cases hs : n ∈ seen
      · have hif : (if n ∈ seen || n ∈ acc then acc else acc ++ [n]) = acc := by
          simp [hs]
        rw [hif]
        constructor
        · rintro (hx | hx)
          · exact Or.inl hx
          · exact Or.inr ⟨Or.inr hx.1, hx.2⟩
        · rintro (hx | ⟨rfl | hx, hns⟩)
          · exact Or.inl hx
          · exact absurd hs hns
          · exact Or.inr ⟨hx, hns⟩
      · by_cases ha : n ∈ acc
        · have hif : (if n ∈ seen || n ∈ acc then acc else acc ++ [n]) = acc := by
            simp [ha]
          rw [hif]
          constructor
          · rintro (hx | hx)
            · exact Or.inl hx
            · exact Or.inr ⟨Or.inr hx.1, hx.2⟩
          · rintro (hx | ⟨rfl | hx, hns⟩)
            · exact Or.inl hx
            · exact Or.inl ha
            · exact Or.inr ⟨hx, hns⟩
        · have hif : (if n ∈ seen || n ∈ acc then acc else acc ++ [n]) = acc ++ [n] := by
            simp [hs, ha]
          rw [hif]
          simp only [List.mem_append, List.mem_singleton]
          constructor
          · rintro (⟨hx | rfl⟩ | hx)
            · exact Or.inl hx
            · exact Or.inr ⟨Or.inl rfl, hs⟩
            · exact Or.inr ⟨Or.inr hx.1, hx.2⟩
          · rintro (hx | ⟨rfl | hx, hns⟩)
            · exact Or.inl (Or.inl hx)
            · exact Or.inl (Or.inr rfl)
            · exact Or.inr ⟨hx, hns⟩

theorem mem_bfsNext (g : PyGraph) (seen frontier : List Nat) (x : Nat) :
    x ∈ bfsNext g seen frontier ↔
      x ∈ frontier.flatMap (neighbors g) ∧ x ∉ seen := by
  simpa [bfsNext] using
    mem_foldl_dedup_seen seen (frontier.flatMap (neighbors g)) [] x

theorem mem_spLengths_one (g : PyGraph) (v n : Nat) (k : Nat)
    (hn : n ∈ neighbors g v) (hnv : n ≠ v) (hk : 1 ≤ k) :
    (n, 1) ∈ spLengths g v k := by
  obtain ⟨k', rfl⟩ : ∃ k', k = k' + 1 := ⟨k - 1, by omega⟩
  have hmem : n ∈ bfsNext g [v] [v] := by
    rw [mem_bfsNext]
    constructor
    · simpa using hn
    · simpa using hnv
  have hne : ¬ (bfsNext g [v] [v]).isEmpty = true := by
    simpa [List.isEmpty_iff] using List.ne_nil_of_mem hmem
  simp only [spLengths, bfsLevels, hne, if_false, List.mem_cons]
  right
  simp only [levelsWithDist, List.mem_append, List.mem_map]
  exact Or.inl ⟨n, hmem, rfl⟩

theorem mem_retrival_one (g : PyGraph) (v : Nat) (ctx : List Nat)
    (p : Nat × Nat) :
    p ∈ retrival_neighbors g 1 v ctx ↔
      v ∈ graphNodes g ∧ p.2 = 1 ∧ p.1 ∈ neighbors g v ∧ p.1 ∉ ctx := by
  unfold retrival_neighbors
  by_cases hv : v ∈ graphNodes g
  · rw [if_pos hv, if_pos (show ((1 : Nat) == 1) = true from rfl)]
    rw [List.mem_filterMap]
    constructor
    · rintro ⟨n, hn, hf⟩
      by_cases hc : n ∈ ctx
      · rw [if_pos hc] at hf
        exact absurd hf (by simp)
      · rw [if_neg hc] at hf
        obtain rfl := Option.some.inj hf
        exact ⟨hv, rfl, hn, hc⟩
    · rintro ⟨_, h2, h3, h4⟩
      refine ⟨p.1, h3, ?_⟩
      rw [if_neg h4, show (p.1, 1) = p from Prod.ext rfl h2.symm]
  · rw [if_neg hv]
    simp only [List.not_mem_nil, false_iff]
    rintro ⟨hvv, -⟩
    exact hv hvv

theorem mem_retrival_two (g : PyGraph) (v : Nat) (ctx : List Nat)
    (p : Nat × Nat) :
    p ∈ retrival_neighbors g 2 v ctx ↔
      v ∈ graphNodes g ∧ p ∈ spLengths g v 2 ∧
        1 ≤ p.2 ∧ p.2 ≤ 2 ∧ p.1 ∉ ctx := by
  unfold retrival_neighbors
  by_cases hv : v ∈ graphNodes g
  · rw [if_pos hv, if_neg (show ¬ ((2 : Nat) == 1) = true by decide)]
    rw [(List.perm_insertionSort _ _).mem_iff, List.mem_filter]
    simp only [Bool.and_eq_true, decide_eq_true_eq, Bool.not_eq_true']
    constructor
    · rintro ⟨hmem, ⟨h1, h2⟩, h3⟩
      exact ⟨hv, hmem, h1, h2, by simpa using h3⟩
    · rintro ⟨-, hmem, h1, h2, h3⟩
      exact ⟨hmem, ⟨h1, h2⟩, by simpa using h3⟩
  · rw [if_neg hv]
    simp only [List.not_mem_nil, false_iff]
    rintro ⟨hvv, -⟩
    exact hv hvv

theorem retrival_two_sorted (g : PyGraph) (v : Nat) (ctx : List Nat) :
    (retrival_neighbors g 2 v ctx).Pairwise (fun p q => p.2 ≤ q.2) := by
  unfold retrival_neighbors
  by_cases hv : v ∈ graphNodes g
  · rw [if_pos hv, if_neg (show ¬ ((2 : Nat) == 1) = true by decide)]
    haveI : IsTotal (Nat × Nat) (fun a b => a.2 ≤ b.2) :=
      ⟨fun a b => Nat.le_total a.2 b.2⟩
    haveI : IsTrans (Nat × Nat) (fun a b => a.2 ≤ b.2) :=
      ⟨fun a b c hab hbc => Nat.le_trans hab hbc⟩
    exact List.sorted_insertionSort (fun (a b : Nat × Nat) => a.2 ≤ b.2)
      ((spLengths g v 2).filter (fun p =>
        decide (1 ≤ p.2) && decide (p.2 ≤ 2) && !(p.1 ∈ ctx)))
  · rw [if_neg hv]
    exact List.Pairwise.nil

/-! ## Helper lemmas on the memory unit -/

theorem shortStep_foldl_isSome (cs : List Stay) (st : ShortTerm)
    (h : st.last_visit.isSome = true) :
    ((cs.foldl shortStep st).last_visit).isSome = true := by
  induction cs generalizing st with
  | nil => simpa
  | cons c cs ih => exact ih (shortStep st c) rfl

theorem write_memory_last_visit_isSome (ks : List Stay) (c : Stay)
    (cs : List Stay) :
    ((write_memory ks (c :: cs)).2.last_visit).isSome = true := by
  simp only [write_memory, List.foldl_cons]
  exact shortStep_foldl_isSome cs (shortStep ⟨Option.none, [], []⟩ c) rfl

theorem write_memory_empty_top_hours (ctx : List Stay) :
    (write_memory [] ctx).1.top_k_frequent_hours = [] := rfl

theorem pyTailSlice_nil {α : Type} (n : Nat) :
    pyTailSlice ([] : List α) n = [] := by
  unfold pyTailSlice
  split <;> simp

theorem mkMemory_empty_long (ctx : List Stay) (len : Nat) :
    (mkMemory [] ctx len).long_term_memory = (write_memory [] ctx).1 := by
  simp only [mkMemory, pyTailSlice_nil]

theorem mkMemory_short (ks ctx : List Stay) (len : Nat) :
    (mkMemory ks ctx len).short_term_memory = (write_memory ks ctx).2 := by
  simp only [mkMemory, write_memory]

/-! ## The claims -/

/-- C1 (counterexample): `predict` does not fail fast on unknown references.
With a dataset holding only user `u1`/trajectory `t1`, a request for city
`Atlantis`, user `u99`, trajectory `t77` raises nothing and returns a result
computed for `u1`/`t1` — a silently substituted user. -/
theorem claim_C1_counterexample :
    (predict llmOk llmOk jsminId exDemoState "Atlantis" (some "u99") (some "t77")
      "agent_move_v6").map (fun r => (r.res_user_id, r.res_traj_id)) =
      Except.ok ("u1", "t1") := rfl

/-- C1 (amended): an unknown `user_id` is treated exactly like an absent one —
`predict` silently falls back to the first available user (and the analogous
fallback applies to trajectory ids); a `ValueError` is raised only when the
dataset has no users at all, and the city is never validated. -/
theorem claim_C1_unknown_user_fallback
    (spatialLLM mainLLM : String → Except String (Option String))
    (jsminF : String → Except Unit String) (st : DemoState)
    (city pt : String) (u : String) (t : Option String)
    (h : alookup st.test_data u = Option.none) :
    predict spatialLLM mainLLM jsminF st city (some u) t pt =
      predict spatialLLM mainLLM jsminF st city Option.none t pt := by
  have hsel : selectUser st (some u) = selectUser st Option.none := by
    simp [selectUser, h]
  unfold predict
  rw [hsel]

/-- C1 (witness): the fallback theorem applied to the concrete demo state and
the unknown user `u99`. -/
theorem claim_C1_witness :
    alookup exDemoState.test_data "u99" = Option.none ∧
    predict llmOk llmOk jsminId exDemoState "Shanghai" (some "u99") (some "t1")
        "agent_move_v6" =
      predict llmOk llmOk jsminId exDemoState "Shanghai" Option.none (some "t1")
        "agent_move_v6" :=
  ⟨rfl, claim_C1_unknown_user_fallback llmOk llmOk jsminId exDemoState
    "Shanghai" "agent_move_v6" "u99" (some "t1") rfl⟩

/-- C2: when every earlier stage succeeds and the final reasoning call fails
(after its retry budget), `predict` does not propagate the failure: it
returns a normal result whose predicted venue is the trajectory's
ground-truth venue id and whose reason is the truncated failure message. -/
theorem claim_C2_ground_truth_substitution
    (spatialLLM mainLLM : String → Except String (Option String))
    (jsminF : String → Except Unit String) (st : DemoState)
    (city pt u t : String) (udata : List (String × TrajData)) (traj : TrajData)
    (gd : List (String × Ground)) (g : Ground) (e : String)
    (hu : alookup st.test_data u = some udata)
    (ht : alookup udata t = some traj)
    (hgd : alookup st.ground_data u = some gd)
    (hg : alookup gd t = some g)
    (hsp : ∀ p, ∃ r, spatialLLM p = Except.ok r)
    (hmem : ∃ mi, read_memory (predictMemory st u udata traj) u PyVal.none =
      Except.ok mi)
    (hfail : ∀ p, mainLLM p = Except.error e) :
    ∃ r, predict spatialLLM mainLLM jsminF st city (some u) (some t) pt =
        Except.ok r ∧
      r.prediction_venue = g.ground_stay ∧
      r.explanation = PyVal.str ("Prediction failed due to: " ++ e.take 100) := by
  obtain ⟨r1, hr1⟩ := hsp (subdistrictPrompt traj 5)
  obtain ⟨r2, hr2⟩ := hsp (poiPrompt traj 5)
  obtain ⟨mi, hmi⟩ := hmem
  have hsel : selectUser st (some u) = Except.ok u := by
    simp [selectUser, hu]
  have hget : (alookup st.test_data u).getD [] = udata := by rw [hu]; rfl
  have hselt : selectTraj udata u (some t) = Except.ok t := by
    simp [selectTraj, ht]
  have hgett : (alookup udata t).getD ⟨[], [], [], [], []⟩ = traj := by
    rw [ht]; rfl
  unfold predict
  rw [hsel]
  simp only [hget, hselt, hgett, hgd, hg, hr1, hr2, hmi, hfail]
  exact ⟨_, rfl, rfl, rfl⟩

/-- C2 (witness): concrete state, spatial capability up, main capability
permanently failing: `predict` returns the ground-truth venue. -/
theorem claim_C2_witness :
    ∃ r, predict llmOk llmFail jsminId exDemoState "Shanghai" (some "u1")
        (some "t1") "agent_move_v6" = Except.ok r ∧
      r.prediction_venue = exGround.ground_stay ∧
      r.explanation = PyVal.str ("Prediction failed due to: " ++
        "ConnectionError".take 100) :=
  claim_C2_ground_truth_substitution llmOk llmFail jsminId exDemoState
    "Shanghai" "agent_move_v6" "u1" "t1" [("t1", exDemoTraj)] exDemoTraj
    [("t1", exGround)] exGround "ConnectionError" rfl rfl rfl rfl
    (fun p => ⟨some "resp", rfl⟩) ⟨_, rfl⟩ (fun p => rfl)

/-- C3: at the failing input — a JSON object whose `prediction` field is
present but empty — `extract_json` does not fall through to the regex stage.
The code passes the parsed *dict* (not the brace-delimited substring) to
`match_prediction`; `re.search` raises `TypeError`, the bare handler turns it
into the sentinel outcome: prediction stays the empty value, the reason is
the exception message, and the sibling `reason` field `"x"` is lost. -/
theorem claim_C3_dict_passed_to_regex :
    extract_json jsminId (some "\x7b\"prediction\": \"\", \"reason\": \"x\"\x7d")
        "prediction" =
      Except.ok (PyVal.dict
        [("raw_response", PyVal.str "\x7b\"prediction\": \"\", \"reason\": \"x\"\x7d"),
         ("prediction", PyVal.str ""),
         ("reason", PyVal.str "Exception:expected string or bytes-like object, got 'dict'")],
        PyVal.str "",
        PyVal.str "Exception:expected string or bytes-like object, got 'dict'") := rfl

/-- C4 (counterexample): the spec's stage-3 example token
`abcdef0123456789abcdef1` has 23 hexadecimal characters, one short of the 24
the regex `\b[0-9a-f]{24}\b` requires, so the fallback yields the empty
list, not the one-element list the claim states. -/
theorem claim_C4_counterexample :
    (extract_json jsminId
        (some "Prediction: abcdef0123456789abcdef1 Reason: because")
        "prediction" =
      Except.ok (PyVal.dict
        [("raw_response",
          PyVal.str "Prediction: abcdef0123456789abcdef1 Reason: because"),
         ("prediction", PyVal.list []),
         ("reason", PyVal.str "")],
        PyVal.list [], PyVal.str "")) ∧
    PyVal.list [] ≠ PyVal.list [PyVal.str "abcdef0123456789abcdef1"] := by
  refine ⟨rfl, ?_⟩
  intro hcontra
  simp at hcontra

/-- C4 (amended): on the spec's input the regex fallback yields `[]` (the
token is 23 characters long); on the same input with a genuine 24-character
token it yields the one-element list, confirming the mechanism. -/
theorem claim_C4_regex_fallback :
    ((extract_json jsminId
        (some "Prediction: abcdef0123456789abcdef1 Reason: because")
        "prediction").map (fun r => r.2.1) = Except.ok (PyVal.list [])) ∧
    ((extract_json jsminId
        (some "Prediction: abcdef0123456789abcdef12 Reason: because")
        "prediction").map (fun r => r.2.1) =
      Except.ok (PyVal.list [PyVal.str "abcdef0123456789abcdef12"])) :=
  ⟨rfl, rfl⟩

/-- C9: whenever the brace-delimited substring parses as a JSON object whose
`prediction` value has no `len` (absent key — `None` — or a number),
`extract_json` neither raises nor reaches the regex stage: it returns the
sentinel with the raw looked-up value as prediction and a reason starting
`Exception:`. -/
theorem claim_C9_sentinel_on_unlenable
    (jsminF : String → Except Unit String) (ft : String)
    (d : List (String × PyVal)) (em : String)
    (hparse : pyJsonLoads (jsminApply jsminF (String.mk (braceSlice ft.data))) =
      some (PyVal.dict d))
    (hlen : pyLen (pyGet d "prediction") = Except.error em) :
    extract_json jsminF (some ft) "prediction" =
      Except.ok (PyVal.dict [("raw_response", PyVal.str ft),
        ("prediction", pyGet d "prediction"),
        ("reason", PyVal.str ("Exception:" ++ em))],
        pyGet d "prediction", PyVal.str ("Exception:" ++ em)) := by
  simp only [extract_json, hparse, hlen]

/-- C9 (witness): a JSON object without the `prediction` key gives the
sentinel with prediction `None` and the `NoneType` length error. -/
theorem claim_C9_witness :
    extract_json jsminId (some "\x7b\"reason\": \"x\"\x7d") "prediction" =
      Except.ok (PyVal.dict [("raw_response", PyVal.str "\x7b\"reason\": \"x\"\x7d"),
        ("prediction", PyVal.none),
        ("reason", PyVal.str "Exception:object of type 'NoneType' has no len()")],
        PyVal.none,
        PyVal.str "Exception:object of type 'NoneType' has no len()") :=
  claim_C9_sentinel_on_unlenable jsminId "\x7b\"reason\": \"x\"\x7d"
    [("reason", PyVal.str "x")] "object of type 'NoneType' has no len()" rfl rfl

/-- C5 (counterexample): with one user whose venue sequence is
`[1,2,1,2,1,2]`, the transition `1→2` is observed 3 times, yet the edge the
built graph stores for the pair carries weight 2 — the count of the *other*
orientation, which overwrote it because `from_pandas_edgelist` builds an
undirected `nx.Graph`.  So there is no edge whose weight equals the
ordered-pair count. -/
theorem claim_C5_counterexample :
    0 < countEq (edgeStream dsLoop) (1, 2) ∧
    edgeWeight (build_graph dsLoop) 1 2 ≠
      some (countEq (edgeStream dsLoop) (1, 2)) ∧
    edgeWeight (build_graph dsLoop) 2 1 = edgeWeight (build_graph dsLoop) 1 2 := by
  decide

/-- C5 (amended): the built graph is undirected with at most one edge per
unordered venue pair.  For every ordered pair with at least one observed
transition there is an edge, its weight is at least 1 and equals the
observed count of one of the two orientations; when the reverse orientation
was never observed it equals exactly the ordered-pair count. -/
theorem claim_C5_undirected_weight (ds : TestData) (a b : Nat)
    (h : 0 < countEq (edgeStream ds) (a, b)) :
    ∃ w, edgeWeight (build_graph ds) a b = some w ∧ 1 ≤ w ∧
      (w = countEq (edgeStream ds) (a, b) ∨ w = countEq (edgeStream ds) (b, a)) ∧
      (countEq (edgeStream ds) (b, a) = 0 → w = countEq (edgeStream ds) (a, b)) :=
  build_graph_weight_spec ds a b h

/-- C5 (witness): the amended statement instantiated on the loop dataset. -/
theorem claim_C5_witness :
    0 < countEq (edgeStream dsLoop) (1, 2) ∧
    ∃ w, edgeWeight (build_graph dsLoop) 1 2 = some w ∧ 1 ≤ w ∧
      (w = countEq (edgeStream dsLoop) (1, 2) ∨
        w = countEq (edgeStream dsLoop) (2, 1)) ∧
      (countEq (edgeStream dsLoop) (2, 1) = 0 →
        w = countEq (edgeStream dsLoop) (1, 2)) :=
  ⟨by decide, claim_C5_undirected_weight dsLoop 1 2 (by decide)⟩

/-- C6 (counterexample): permuting the users changes the resulting graph.
Under order `A, C, B` the single undirected edge is stored as `(1,2)` with
weight 1; under the permuted order `B, A, C` it is stored as `(2,1)` with
weight 2 — the edge multisets differ. -/
theorem claim_C6_counterexample :
    dsOrder1.Perm dsOrder2 ∧
    (build_graph dsOrder1).edges = [(1, 2, 1)] ∧
    (build_graph dsOrder2).edges = [(2, 1, 2)] := by
  refine ⟨by decide, rfl, rfl⟩

/-- C6 (amended): what *is* order-independent is the aggregation stage: the
multiset of `(src, dst, weight)` rows fed into the graph (ordered transition
counts) is invariant under permuting the users.  The final undirected
graph's weights are not, because reverse-orientation rows overwrite each
other in row order. -/
theorem claim_C6_rows_perm_invariant (d1 d2 : TestData) (h : d1.Perm d2) :
    (edgeRows d1).Perm (edgeRows d2) :=
  edgeRows_perm h

/-- C6 (witness): the row multiset is the same for the two concrete user
orders of the counterexample. -/
theorem claim_C6_witness :
    dsOrder1.Perm dsOrder2 ∧ (edgeRows dsOrder1).Perm (edgeRows dsOrder2) :=
  ⟨by decide, claim_C6_rows_perm_invariant dsOrder1 dsOrder2 (by decide)⟩

/-- C7 (counterexample): a self-loop breaks the k=1 ⊆ k=2 containment.  For
the graph built from a user staying twice at venue 5, the k=1 retrieval from
venue 5 returns venue 5 itself (its only neighbor), but the k=2 retrieval is
empty because the BFS distance of the source is 0, outside the `1 ≤ d`
filter. -/
theorem claim_C7_counterexample :
    retrival_neighbors (build_graph dsSelfLoop) 1 5 [] = [(5, 1)] ∧
    retrival_neighbors (build_graph dsSelfLoop) 2 5 [] = [] := by
  decide

/-- C7 (amended): for every graph, source and exclude set: the k=1 result is
a subset (by node id) of the k=2 result *provided the source has no
self-loop*; every k=2 hop distance lies in `[1, 2]`; the k=2 distances are
non-decreasing in result order; and neither retrieval returns a venue of the
exclude (context) set. -/
theorem claim_C7_retrieval_properties (g : PyGraph) (v : Nat) (ctx : List Nat) :
    (v ∉ neighbors g v →
      ∀ n ∈ (retrival_neighbors g 1 v ctx).map Prod.fst,
        n ∈ (retrival_neighbors g 2 v ctx).map Prod.fst) ∧
    (∀ p ∈ retrival_neighbors g 2 v ctx, 1 ≤ p.2 ∧ p.2 ≤ 2) ∧
    ((retrival_neighbors g 2 v ctx).Pairwise (fun p q => p.2 ≤ q.2)) ∧
    (∀ p ∈ retrival_neighbors g 1 v ctx, p.1 ∉ ctx) ∧
    (∀ p ∈ retrival_neighbors g 2 v ctx, p.1 ∉ ctx) := by
  refine ⟨?_, ?_, retrival_two_sorted g v ctx, ?_, ?_⟩
  · intro hself n hn
    rw [List.mem_map] at hn
    obtain ⟨p, hp, rfl⟩ := hn
    obtain ⟨hv, h2, h3, h4⟩ := (mem_retrival_one g v ctx p).1 hp
    have hpv : p.1 ≠ v := fun heq => hself (heq ▸ h3)
    have hsp := mem_spLengths_one g v p.1 2 h3 hpv (by omega)
    rw [List.mem_map]
    exact ⟨(p.1, 1), (mem_retrival_two g v ctx (p.1, 1)).2
      ⟨hv, hsp, by omega, by omega, h4⟩, rfl⟩
  · intro p hp
    obtain ⟨-, -, h1, h2, -⟩ := (mem_retrival_two g v ctx p).1 hp
    exact ⟨h1, h2⟩
  · intro p hp
    exact ((mem_retrival_one g v ctx p).1 hp).2.2.2
  · intro p hp
    obtain ⟨-, -, -, -, h⟩ := (mem_retrival_two g v ctx p).1 hp
    exact h

/-- C7 (witness): on the path graph `1–2–3, 2–4` with source 1 (no
self-loop), the k=1 nodes are contained in the k=2 nodes. -/
theorem claim_C7_witness :
    (1 : Nat) ∉ neighbors (build_graph dsPath) 1 ∧
    ∀ n ∈ (retrival_neighbors (build_graph dsPath) 1 1 []).map Prod.fst,
      n ∈ (retrival_neighbors (build_graph dsPath) 2 1 []).map Prod.fst :=
  ⟨by decide,
    (claim_C7_retrieval_properties (build_graph dsPath) 1 []).1 (by decide)⟩

/-- C8 (counterexample): with `memory_lens = 0` the slice `know_stays[-0:]`
is the *whole* list, so the long-term structures of a one-stay history are
not those derived from the last 0 entries (the empty list), contradicting
the claim at `memory_lens = 0`. -/
theorem claim_C8_counterexample :
    (mkMemory [exStay 2] [] 0).long_term_memory ≠
      (write_memory (List.drop ([exStay 2].length - 0) [exStay 2]) []).1 := by
  decide

/-- C8 (amended): for every positive `memory_lens` the long-term structures
are derived from exactly the last `memory_lens` known stays (all of them
when the list is shorter); in the `memory_lens = 0` unbounded-history mode
the whole list is used instead. -/
theorem claim_C8_trims_to_memory_lens (ks ctx : List Stay) (len : Nat)
    (h : 1 ≤ len) :
    (mkMemory ks ctx len).long_term_memory =
      (write_memory (ks.drop (ks.length - len)) ctx).1 := by
  have hslice : pyTailSlice ks (min ks.length len) = ks.drop (ks.length - len) := by
    unfold pyTailSlice
    by_cases hz : (min ks.length len == 0) = true
    · rw [if_pos hz]
      have h0 : min ks.length len = 0 := by simpa using hz
      have hk0 : ks.length = 0 := by omega
      have hks : ks = [] := List.length_eq_zero.1 hk0
      subst hks
      simp
    · rw [if_neg hz]
      congr 1
      omega
  simp only [mkMemory, hslice]

/-- C8 (witness): the amended statement at `memory_lens = 15` on a two-stay
history. -/
theorem claim_C8_witness :
    1 ≤ 15 ∧
    (mkMemory [exStay 1, exStay2 4] [] 15).long_term_memory =
      (write_memory (List.drop ([exStay 1, exStay2 4].length - 15)
        [exStay 1, exStay2 4]) []).1 :=
  ⟨by decide, claim_C8_trims_to_memory_lens [exStay 1, exStay2 4] [] 15 (by decide)⟩

/-- C10: a `Memory` built from an empty known-stays list makes `read_memory`
raise for every context: with context stays the profile generation takes
`max` of the empty top-k hour list (`ValueError`); without any context stays
the short-term readout hits `KeyError('day')` even earlier.  Either way the
public read path raises. -/
theorem claim_C10_read_memory_raises (ctx : List Stay) (len : Nat)
    (uid : String) (tgt : PyVal) :
    (read_memory (mkMemory [] ctx len) uid tgt).isOk = false := by
  cases ctx with
  | nil =>
      have hshort : short_term_memory_readout
          (mkMemory [] [] len).short_term_memory = Except.error "'day'" := by
        rw [mkMemory_short]
        rfl
      unfold read_memory
      rw [hshort]
      rfl
  | cons c cs =>
      have hsome : ((mkMemory [] (c :: cs) len).short_term_memory.last_visit).isSome
          = true := by
        rw [mkMemory_short]
        exact write_memory_last_visit_isSome [] c cs
      obtain ⟨lv, hlv⟩ := Option.isSome_iff_exists.1 hsome
      have hshort : ∃ s, short_term_memory_readout
          (mkMemory [] (c :: cs) len).short_term_memory = Except.ok s := by
        unfold short_term_memory_readout
        rw [hlv]
        exact ⟨_, rfl⟩
      obtain ⟨s, hs⟩ := hshort
      have htop : (mkMemory [] (c :: cs) len).long_term_memory.top_k_frequent_hours
          = [] := by
        rw [mkMemory_empty_long]
        exact write_memory_empty_top_hours _
      have hprof : user_profile_generation
          (mkMemory [] (c :: cs) len).long_term_memory =
          Except.error "max() arg is an empty sequence" := by
        unfold user_profile_generation
        rw [htop]
      unfold read_memory
      rw [hs, hprof]
      rfl
